import Mathlib

/-!
# Verification of the `DimensionReductionForScRNASeq` notebook pipeline

The repository is a single Jupyter notebook (`DimensionReduction.ipynb`)
that runs a straight-line single-cell RNA-seq analysis: load a 10x count
matrix into an annotated-matrix object (`adata`), preprocess it (filtering,
QC subsetting, normalization, log transform, highly-variable-gene flags),
compute a neighbor graph and a Leiden clustering, and then run four
dimension-reduction methods (PCA, t-SNE, UMAP, scVI), storing each embedding
on the annotated matrix.

This file gives a shallow embedding of that pipeline:

* `AnnData` models the annotated count matrix with the metadata columns,
  layers and embedding slots the notebook touches.
* Each library call the notebook makes is modelled as a function on
  `AnnData`.  Calls whose numerics live in external libraries (leiden, PCA,
  t-SNE, UMAP, the scVI network, `log1p`) are modelled from the spec at the
  shape level: one cluster label / one coordinate vector per cell; the
  transcendental `log1p` is an abstract entrywise parameter `lg`.
* `notebookTags` lists the notebook's cells/statements in source order, and
  `applyStep` gives each its semantics on a `PipeState` (the `adata` binding,
  the `adata_scvi` binding, the data registered for scVI training, and the
  serialized file).
* `objEffect` records what each statement does to object bindings
  (in-place mutation vs. rebinding to a fresh object vs. an explicit copy),
  and `fileWrites` records each statement's file-system writes.
-/

/-- A cells × genes numeric matrix: one row per cell. -/
abbrev Mat : Type := List (List ℚ)

/-- Number of nonzero entries of a row (a cell's detected genes, or a
column's expressing cells). -/
def countNonzero (r : List ℚ) : ℕ := (r.filter (fun x => x ≠ 0)).length

/-- Sum of a row. -/
def rowSum (r : List ℚ) : ℚ := r.foldr (· + ·) 0

/-- Keep the entries of `xs` whose position carries `true` in the mask. -/
def maskList {α : Type} (m : List Bool) (xs : List α) : List α :=
  match m, xs with
  | true :: m', x :: xs' => x :: maskList m' xs'
  | false :: m', _ :: xs' => maskList m' xs'
  | _, _ => []

/-- Pointwise conjunction of two Boolean masks. -/
def zipAnd : List Bool → List Bool → List Bool
  | a :: as, b :: bs => (a && b) :: zipAnd as bs
  | _, _ => []

/-- Column `j` of a matrix (0 outside a ragged row). -/
def colGet (j : ℕ) (X : Mat) : List ℚ := X.map (fun r => r.getD j 0)

/-- Sum of the entries of `r` at positions flagged in `mt`. -/
def mtSum (mt : List Bool) (r : List ℚ) : ℚ := rowSum (maskList mt r)

/-- The annotated count matrix: the main matrix `X`, the gene names, the
per-cell (`obs`) and per-gene (`var`) metadata columns the notebook adds,
the `counts` layer, and the four low-dimensional embedding slots (`obsm`). -/
structure AnnData where
  X : Mat
  varNames : List String
  obsNGenes : Option (List ℕ) := none
  varNCells : Option (List ℕ) := none
  varMt : Option (List Bool) := none
  obsNGenesByCounts : Option (List ℕ) := none
  obsTotalCounts : Option (List ℚ) := none
  obsPctCountsMt : Option (List ℚ) := none
  layersCounts : Option Mat := none
  varHighlyVariable : Option (List Bool) := none
  neighborsComputed : Bool := false
  obsLeiden : Option (List ℕ) := none
  xPca : Option Mat := none
  xTsne : Option Mat := none
  xUmap : Option Mat := none
  xScvi : Option Mat := none
  rawSet : Bool := false
  deriving Repr, DecidableEq

/-- Subset the cell axis by a Boolean mask: rows of `X`, every per-cell
column, the rows of each layer and of each stored embedding. -/
def maskCells (m : List Bool) (a : AnnData) : AnnData :=
  { a with
    X := maskList m a.X
    obsNGenes := a.obsNGenes.map (maskList m)
    obsNGenesByCounts := a.obsNGenesByCounts.map (maskList m)
    obsTotalCounts := a.obsTotalCounts.map (maskList m)
    obsPctCountsMt := a.obsPctCountsMt.map (maskList m)
    obsLeiden := a.obsLeiden.map (maskList m)
    layersCounts := a.layersCounts.map (maskList m)
    xPca := a.xPca.map (maskList m)
    xTsne := a.xTsne.map (maskList m)
    xUmap := a.xUmap.map (maskList m)
    xScvi := a.xScvi.map (maskList m) }

/-- `adata.var_names_make_unique()`: rename duplicated gene names so that
the names become unique; positions and count are unchanged. -/
def uniquifyFrom (seen : List String) : List String → List String
  | [] => []
  | n :: rest =>
    let n' := if n ∈ seen then n ++ "-dup" else n
    n' :: uniquifyFrom (n' :: seen) rest

/-- Gene names after `var_names_make_unique`. -/
def uniquify (names : List String) : List String := uniquifyFrom [] names

/-- `sc.pp.filter_cells(adata, min_genes)`: keep the cells with at least
`minGenes` detected (nonzero) genes and record `obs.n_genes`. -/
def filter_cells (minGenes : ℕ) (a : AnnData) : AnnData :=
  let m := a.X.map (fun r => decide (minGenes ≤ countNonzero r))
  let a' := maskCells m a
  { a' with obsNGenes := some (a'.X.map countNonzero) }

/-- `sc.pp.filter_genes(adata, min_cells)`: keep the genes detected in at
least `minCells` cells and record `var.n_cells`; the gene axis of `X`, the
gene names and every per-gene column are subset together. -/
def filter_genes (minCells : ℕ) (a : AnnData) : AnnData :=
  let m := (List.range a.varNames.length).map
    (fun j => decide (minCells ≤ countNonzero (colGet j a.X)))
  { a with
    X := a.X.map (maskList m)
    varNames := maskList m a.varNames
    varNCells := some (maskList m
      ((List.range a.varNames.length).map (fun j => countNonzero (colGet j a.X))))
    varMt := a.varMt.map (maskList m)
    varHighlyVariable := a.varHighlyVariable.map (maskList m)
    layersCounts := a.layersCounts.map (fun C => C.map (maskList m)) }

/-- `adata.var['mt'] = adata.var_names.str.startswith('MT-')`. -/
def annotateMt (a : AnnData) : AnnData :=
  { a with varMt := some (a.varNames.map (fun s => s.startsWith "MT-")) }

/-- Percentage of a cell's counts that fall on mitochondrial genes. -/
def pctMtOfRow (mt : List Bool) (r : List ℚ) : ℚ :=
  if rowSum r = 0 then 0 else 100 * mtSum mt r / rowSum r

/-- `sc.pp.calculate_qc_metrics(adata, qc_vars=['mt'], ...)`: record
`n_genes_by_counts`, `total_counts` and `pct_counts_mt` per cell. -/
def calculate_qc_metrics (a : AnnData) : AnnData :=
  let mt := a.varMt.getD (a.varNames.map (fun _ => false))
  { a with
    obsNGenesByCounts := some (a.X.map countNonzero)
    obsTotalCounts := some (a.X.map rowSum)
    obsPctCountsMt := some (a.X.map (pctMtOfRow mt)) }

/-- `adata = adata[adata.obs.n_genes_by_counts < 2500, :]`. -/
def subsetNGenesLt (bound : ℕ) (a : AnnData) : AnnData :=
  maskCells ((a.obsNGenesByCounts.getD []).map (fun g => decide (g < bound))) a

/-- `adata = adata[adata.obs.pct_counts_mt < 5, :]`. -/
def subsetPctMtLt (bound : ℚ) (a : AnnData) : AnnData :=
  maskCells ((a.obsPctCountsMt.getD []).map (fun p => decide (p < bound))) a

/-- `adata.layers["counts"] = adata.X`. -/
def saveCountsLayer (a : AnnData) : AnnData := { a with layersCounts := some a.X }

/-- One row of `sc.pp.normalize_total`: scale the row so its entries sum to
`target` (rows summing to zero are left untouched). -/
def normalizeRow (target : ℚ) (r : List ℚ) : List ℚ :=
  if rowSum r = 0 then r else r.map (fun x => x * target / rowSum r)

/-- `sc.pp.normalize_total(adata, target_sum)`: per-cell normalization of
the main matrix `X`; no other field is touched. -/
def normalize_total (target : ℚ) (a : AnnData) : AnnData :=
  { a with X := a.X.map (normalizeRow target) }

/-- Entrywise application of the (abstract) `log1p` function. -/
def log1pMat (lg : ℚ → ℚ) (X : Mat) : Mat := X.map (fun r => r.map lg)

/-- `sc.pp.log1p(adata)`: entrywise log transform of the main matrix `X`;
no other field is touched. -/
def log1pStepFun (lg : ℚ → ℚ) (a : AnnData) : AnnData :=
  { a with X := log1pMat lg a.X }

/-- Mean of column `j` over the cells. -/
def colMean (X : Mat) (j : ℕ) : ℚ :=
  if X.length = 0 then 0 else rowSum (colGet j X) / X.length

/-- Variance of column `j` over the cells. -/
def colVar (X : Mat) (j : ℕ) : ℚ :=
  if X.length = 0 then 0
  else rowSum ((colGet j X).map (fun x => x * x)) / X.length - colMean X j * colMean X j

/-- Dispersion (variance over mean) of column `j`. -/
def colDispersion (X : Mat) (j : ℕ) : ℚ :=
  if colMean X j = 0 then 0 else colVar X j / colMean X j

/-- Modelled from the spec: `sc.pp.highly_variable_genes(adata, min_mean,
max_mean, min_disp)` (library code, not in this repository) flags the genes
passing variance-based criteria — thresholds on mean expression and on
dispersion. -/
def hvgFlags (minMean maxMean minDisp : ℚ) (X : Mat) (nGenes : ℕ) : List Bool :=
  (List.range nGenes).map (fun j =>
    decide (minMean < colMean X j) && decide (colMean X j < maxMean) &&
      decide (minDisp < colDispersion X j))

/-- `sc.pp.highly_variable_genes(adata, min_mean=0.0125, max_mean=3,
min_disp=0.5)`: write the `highly_variable` flag into the gene metadata. -/
def highly_variable_genes (minMean maxMean minDisp : ℚ) (a : AnnData) : AnnData :=
  { a with varHighlyVariable := some (hvgFlags minMean maxMean minDisp a.X a.varNames.length) }

/-- Modelled from the spec: `sc.tl.leiden` (library code, not in this
repository) computes a clustering of the cells — one cluster label per
cell; the label values are library internals. -/
def leidenLabels (X : Mat) : List ℕ := X.map (fun _ => 0)

/-- Modelled from the spec: a dimension-reduction method invoked through
the library (PCA / t-SNE / UMAP / the scVI latent space, none of whose
numerics are in this repository) returns a low-dimensional embedding with
one `k`-dimensional coordinate vector per cell. -/
def embedRows (k : ℕ) (X : Mat) : Mat := X.map (fun r => r.take k)

/-- Insert index `i` into a list of indices kept sorted by decreasing
`vals` entry. -/
def insertByValDesc (vals : List ℚ) (i : ℕ) : List ℕ → List ℕ
  | [] => [i]
  | j :: rest =>
    if vals.getD j 0 ≤ vals.getD i 0 then i :: j :: rest
    else j :: insertByValDesc vals i rest

/-- Indices sorted by decreasing `vals` entry (insertion sort). -/
def sortIdxByValDesc (vals : List ℚ) (idx : List ℕ) : List ℕ :=
  idx.foldr (insertByValDesc vals) []

/-- Modelled from the spec: `sc.pp.highly_variable_genes(adata_scvi,
flavor="seurat_v3", n_top_genes, layer="counts", subset=True)` (library
code, not in this repository) performs a variance-based top-`k` gene
selection on the counts layer and subsets the gene axis to the selected
genes. -/
def seuratV3TopGenes (k : ℕ) (a : AnnData) : AnnData :=
  let counts := a.layersCounts.getD a.X
  let n := a.varNames.length
  let vars := (List.range n).map (fun j => colVar counts j)
  let keep := (sortIdxByValDesc vars (List.range n)).take k
  let pickCols : List ℚ → List ℚ := fun r => keep.map (fun j => r.getD j 0)
  { a with
    X := a.X.map pickCols
    varNames := keep.map (fun j => a.varNames.getD j "")
    varNCells := a.varNCells.map (fun c => keep.map (fun j => c.getD j 0))
    varMt := a.varMt.map (fun c => keep.map (fun j => c.getD j false))
    varHighlyVariable := some (keep.map (fun _ => true))
    layersCounts := a.layersCounts.map (fun C => C.map pickCols) }

/-! ## The notebook's statements, in source order -/

/-- One tag per statement of the notebook that the pipeline executes, in
source order (markdown cells and commented-out code carry no tag). -/
inductive StepTag where
  | installPkgs       -- pip install cells
  | chdirStep         -- os.chdir(...)
  | mkdirData         -- !mkdir data
  | downloadData      -- !wget ... -O data/pbmc3k_filtered_gene_bc_matrices.tar.gz
  | extractData       -- !cd data; tar -xzf ...
  | mkdirWrite        -- !mkdir write
  | readData          -- adata = sc.read_10x_mtx(...)
  | varNamesUnique    -- adata.var_names_make_unique()
  | setRaw            -- adata.raw = adata
  | plotHighestExpr   -- sc.pl.highest_expr_genes
  | filterCellsStep   -- sc.pp.filter_cells(adata, min_genes=200)
  | filterGenesStep   -- sc.pp.filter_genes(adata, min_cells=3)
  | mtFlagStep        -- adata.var['mt'] = ...startswith('MT-')
  | calcQCStep        -- sc.pp.calculate_qc_metrics(...)
  | plotViolin        -- sc.pl.violin
  | plotScatter       -- sc.pl.scatter (two calls)
  | subsetNGenesStep  -- adata = adata[adata.obs.n_genes_by_counts < 2500, :]
  | subsetPctMtStep   -- adata = adata[adata.obs.pct_counts_mt < 5, :]
  | saveCountsStep    -- adata.layers["counts"] = adata.X
  | normalizeStep     -- sc.pp.normalize_total(adata, target_sum=1e4)
  | log1pStep         -- sc.pp.log1p(adata)
  | hvgStep           -- sc.pp.highly_variable_genes(adata, 0.0125, 3, 0.5)
  | plotHvg           -- sc.pl.highly_variable_genes
  | neighborsStep1    -- sc.pp.neighbors(adata, n_neighbors=10, n_pcs=40)
  | leidenStep        -- sc.tl.leiden(adata)
  | pcaStep           -- sc.tl.pca(adata, n_comps=100)
  | plotPcaBasic      -- sc.pl.pca(adata)
  | plotPcaColor      -- sc.pl.pca(..., color=...)
  | plotPcaVariance   -- sc.pl.pca_variance_ratio
  | writeResults      -- adata.write(results_file)
  | tsneStep          -- sc.tl.tsne(adata, ...)
  | plotTsneBasic     -- sc.pl.tsne(adata)
  | plotTsneColor     -- sc.pl.tsne(..., color=...)
  | neighborsStep2    -- sc.pp.neighbors(adata, n_neighbors=15, n_pcs=20)
  | umapStep          -- sc.tl.umap(adata, ...)
  | plotUmapBasic     -- sc.pl.umap(adata)
  | plotUmapColor     -- sc.pl.umap(..., color=...)
  | copyScvi          -- adata_scvi = adata.copy()
  | hvgScviStep       -- sc.pp.highly_variable_genes(adata_scvi, seurat_v3, 2000, counts, subset=True)
  | setupScviStep     -- scvi.model.SCVI.setup_anndata(adata_scvi, layer="counts")
  | createVae         -- vae = scvi.model.SCVI(adata_scvi, n_layers=2, n_latent=2, ...)
  | trainVaeStep      -- vae.train(max_epochs=100, use_gpu=False)
  | assignScviStep    -- adata.obsm["X_scVI"] = vae.get_latent_representation()
  | plotScviStep      -- sc.pl.embedding(adata, basis="X_scVI", ...)
  deriving Repr, DecidableEq

open StepTag

/-- The notebook's executed statements in source order. -/
def notebookTags : List StepTag :=
  [installPkgs, chdirStep, mkdirData, downloadData, extractData, mkdirWrite,
   readData, varNamesUnique, setRaw, plotHighestExpr,
   filterCellsStep, filterGenesStep, mtFlagStep, calcQCStep, plotViolin, plotScatter,
   subsetNGenesStep, subsetPctMtStep, saveCountsStep, normalizeStep, log1pStep,
   hvgStep, plotHvg, neighborsStep1, leidenStep,
   pcaStep, plotPcaBasic, plotPcaColor, plotPcaVariance, writeResults,
   tsneStep, plotTsneBasic, plotTsneColor,
   neighborsStep2, umapStep, plotUmapBasic, plotUmapColor,
   copyScvi, hvgScviStep, setupScviStep, createVae, trainVaeStep,
   assignScviStep, plotScviStep]

/-- The interpreter state of the notebook session: the `adata` binding, the
`adata_scvi` binding, the data registered for scVI training, and the
contents of the serialized results file. -/
structure PipeState where
  adata : AnnData
  adataScvi : Option AnnData := none
  vaeInput : Option Mat := none
  written : Option AnnData := none
  deriving Repr, DecidableEq

/-- The empty session state before any data is read. -/
def initState : PipeState := { adata := { X := [], varNames := [] } }

/-- Semantics of one notebook statement.  `X0` and `names0` are the count
matrix and gene names that `sc.read_10x_mtx` reads from the downloaded
data (a fresh annotated matrix carrying nothing else); `lg` is the
abstract entrywise `log1p`. -/
def applyStep (X0 : Mat) (names0 : List String) (lg : ℚ → ℚ) (t : StepTag)
    (s : PipeState) : PipeState :=
  match t with
  | installPkgs | chdirStep | mkdirData | downloadData | extractData | mkdirWrite => s
  | readData => { s with adata := { X := X0, varNames := names0 } }
  | varNamesUnique => { s with adata := { s.adata with varNames := uniquify s.adata.varNames } }
  | setRaw => { s with adata := { s.adata with rawSet := true } }
  | plotHighestExpr | plotViolin | plotScatter | plotHvg => s
  | filterCellsStep => { s with adata := filter_cells 200 s.adata }
  | filterGenesStep => { s with adata := filter_genes 3 s.adata }
  | mtFlagStep => { s with adata := annotateMt s.adata }
  | calcQCStep => { s with adata := calculate_qc_metrics s.adata }
  | subsetNGenesStep => { s with adata := subsetNGenesLt 2500 s.adata }
  | subsetPctMtStep => { s with adata := subsetPctMtLt 5 s.adata }
  | saveCountsStep => { s with adata := saveCountsLayer s.adata }
  | normalizeStep => { s with adata := normalize_total 10000 s.adata }
  | log1pStep => { s with adata := log1pStepFun lg s.adata }
  | hvgStep => { s with adata := highly_variable_genes (125/10000) 3 (1/2) s.adata }
  | neighborsStep1 | neighborsStep2 =>
    { s with adata := { s.adata with neighborsComputed := true } }
  | leidenStep => { s with adata := { s.adata with obsLeiden := some (leidenLabels s.adata.X) } }
  | pcaStep => { s with adata := { s.adata with xPca := some (embedRows 100 s.adata.X) } }
  | plotPcaBasic | plotPcaColor | plotPcaVariance => s
  | writeResults => { s with written := some s.adata }
  | tsneStep => { s with adata := { s.adata with xTsne := some (embedRows 2 s.adata.X) } }
  | plotTsneBasic | plotTsneColor => s
  | umapStep => { s with adata := { s.adata with xUmap := some (embedRows 2 s.adata.X) } }
  | plotUmapBasic | plotUmapColor => s
  | copyScvi => { s with adataScvi := some s.adata }
  | hvgScviStep => { s with adataScvi := s.adataScvi.map (seuratV3TopGenes 2000) }
  | setupScviStep => { s with vaeInput := s.adataScvi.bind (fun b => b.layersCounts) }
  | createVae | trainVaeStep => s
  | assignScviStep =>
    { s with adata := { s.adata with xScvi := s.vaeInput.map (embedRows 2) } }
  | plotScviStep => s

/-- Run a list of statements in order. -/
def runTags (X0 : Mat) (names0 : List String) (lg : ℚ → ℚ) :
    List StepTag → PipeState → PipeState
  | [], s => s
  | t :: ts, s => runTags X0 names0 lg ts (applyStep X0 names0 lg t s)

/-- Run the whole notebook top to bottom. -/
def runNotebook (X0 : Mat) (names0 : List String) (lg : ℚ → ℚ) : PipeState :=
  runTags X0 names0 lg notebookTags initState

/-- The session state just before statement `t` executes (the run of the
longest prefix of the notebook not containing `t`). -/
def stateBefore (t : StepTag) (X0 : Mat) (names0 : List String) (lg : ℚ → ℚ) : PipeState :=
  runTags X0 names0 lg (notebookTags.takeWhile (fun u => u ≠ t)) initState

/-- Position of a statement in the notebook. -/
def tagPos (t : StepTag) : ℕ := (notebookTags.takeWhile (fun u => u ≠ t)).length

/-! ## Object-binding effects and file-system writes -/

/-- What a statement does to the annotated-matrix object bindings. -/
inductive ObjEffect where
  | pureStep      -- touches no annotated-matrix binding (plots, shell, vae)
  | allocRead     -- allocates the matrix by reading the input data
  | mutateInPlace -- mutates the object bound to `adata` in place
  | rebindNew     -- rebinds `adata` to a freshly created subset object
  | allocCopy     -- allocates an explicit copy bound to a second name
  | mutateCopy    -- mutates the object bound to `adata_scvi` in place
  deriving Repr, DecidableEq

/-- The object-binding effect of each notebook statement, read off the
source: subscript-assignment and method calls mutate in place, slicing
(`adata = adata[...]`) rebinds `adata` to a new object, and
`adata_scvi = adata.copy()` allocates a copy. -/
def objEffect : StepTag → ObjEffect
  | readData => .allocRead
  | varNamesUnique | setRaw | filterCellsStep | filterGenesStep | mtFlagStep
  | calcQCStep | saveCountsStep | normalizeStep | log1pStep | hvgStep
  | neighborsStep1 | leidenStep | pcaStep | tsneStep | neighborsStep2
  | umapStep | assignScviStep => .mutateInPlace
  | subsetNGenesStep | subsetPctMtStep => .rebindNew
  | copyScvi => .allocCopy
  | hvgScviStep | setupScviStep => .mutateCopy
  | _ => .pureStep

/-- The files a statement writes: `(path, isPipelineOutput)`.  Downloading
and unpacking the input data write input files (`isPipelineOutput = false`);
`adata.write(results_file)` writes the one pipeline output. -/
def fileWrites : StepTag → List (String × Bool)
  | downloadData => [("data/pbmc3k_filtered_gene_bc_matrices.tar.gz", false)]
  | extractData =>
    [("data/filtered_gene_bc_matrices/hg19/matrix.mtx", false),
     ("data/filtered_gene_bc_matrices/hg19/genes.tsv", false),
     ("data/filtered_gene_bc_matrices/hg19/barcodes.tsv", false)]
  | writeResults => [("data/pbmc3k.h5ad", true)]
  | _ => []

/-- All files the notebook writes that are pipeline outputs (not downloaded
or unpacked input data). -/
def pipelineOutputFiles : List String :=
  ((notebookTags.flatMap fileWrites).filter (fun w => w.2)).map (fun w => w.1)

/-! ## Exception propagation -/

/-- Run the notebook's statements where each library call may raise: `f`
gives each statement's outcome on the current state.  The statements are
sequenced by plain `bind` — the notebook contains no exception handler, so
the first error short-circuits the rest of the run. -/
def runExcept {ε : Type} (f : StepTag → PipeState → Except ε PipeState) :
    List StepTag → PipeState → Except ε PipeState
  | [], s => Except.ok s
  | t :: ts, s => (f t s).bind (runExcept f ts)


/-- The property claim C1 asserts of the notebook: every statement leaves
the annotated matrix mutated in place — none rebinds `adata` to a freshly
created object and none introduces a second copy of the matrix. -/
def claimC1InPlace : Prop :=
  ∀ t ∈ notebookTags,
    objEffect t ≠ ObjEffect.rebindNew ∧ objEffect t ≠ ObjEffect.allocCopy

/-- The preprocessing sequence exactly as claim C2 words it, on the main
matrix: filter the cells with fewer than 200 detected genes, then the genes
detected in fewer than 3 cells, then drop the cells with
`n_genes_by_counts ≥ 2500` or `pct_counts_mt ≥ 5`, then normalize each
cell's total to 10000, then apply `log1p`.  (This definition follows the
claim's words, to be compared with the pipeline run.) -/
def specPreprocessX (X0 : Mat) (names0 : List String) (lg : ℚ → ℚ) : Mat :=
  let names := uniquify names0
  let X1 := maskList (X0.map (fun r => decide (200 ≤ countNonzero r))) X0
  let gmask := (List.range names.length).map
    (fun j => decide (3 ≤ countNonzero (colGet j X1)))
  let X2 := X1.map (maskList gmask)
  let mt := (maskList gmask names).map (fun s => s.startsWith "MT-")
  let dropMask := X2.map (fun r =>
    !(decide (2500 ≤ countNonzero r) || decide ((5 : ℚ) ≤ pctMtOfRow mt r)))
  let X3 := maskList dropMask X2
  log1pMat lg (X3.map (normalizeRow 10000))

/-! ## Helper lemmas -/

/-- `runExcept` over a concatenation sequences the two halves by `bind`. -/
theorem runExcept_append {ε : Type} (f : StepTag → PipeState → Except ε PipeState)
    (l1 l2 : List StepTag) (s : PipeState) :
    runExcept f (l1 ++ l2) s = (runExcept f l1 s).bind (runExcept f l2) := by
  induction l1 generalizing s with
  | nil => simp [runExcept, Except.bind]
  | cons t ts ih =>
    simp only [List.cons_append, runExcept]
    cases f t s <;> simp [Except.bind, ih]

/-- Inserting into the sorted index list grows it by one. -/
theorem length_insertByValDesc (vals : List ℚ) (i : ℕ) (l : List ℕ) :
    (insertByValDesc vals i l).length = l.length + 1 := by
  induction l with
  | nil => rfl
  | cons j rest ih =>
    unfold insertByValDesc
    split <;> simp [ih]

/-- Sorting indices by value preserves their number. -/
theorem length_sortIdxByValDesc (vals : List ℚ) (idx : List ℕ) :
    (sortIdxByValDesc vals idx).length = idx.length := by
  induction idx with
  | nil => rfl
  | cons i rest ih =>
    simp [sortIdxByValDesc, List.foldr_cons, length_insertByValDesc] at *
    rw [ih]

/-- `map` commutes with masking. -/
theorem maskList_map {α β : Type} (f : α → β) (m : List Bool) (xs : List α) :
    (maskList m xs).map f = maskList m (xs.map f) := by
  induction m generalizing xs with
  | nil => simp [maskList]
  | cons b m ih =>
    cases xs with
    | nil => cases b <;> simp [maskList]
    | cons x xs => cases b <;> simp [maskList, ih]

/-- Masking twice — with a mask that was itself subset the same way —
equals masking once with the pointwise conjunction. -/
theorem maskList_maskList {α : Type} (m1 m2 : List Bool) (xs : List α) :
    maskList (maskList m1 m2) (maskList m1 xs) = maskList (zipAnd m1 m2) xs := by
  induction m1 generalizing m2 xs with
  | nil => cases m2 <;> cases xs <;> simp [maskList, zipAnd]
  | cons b m1 ih =>
    cases m2 with
    | nil => cases xs <;> cases b <;> simp [maskList, zipAnd]
    | cons c m2 =>
      cases xs with
      | nil => cases b <;> cases c <;> simp [maskList, zipAnd]
      | cons x xs => cases b <;> cases c <;> simp [maskList, zipAnd, ih]

/-- Conjunction of two masks computed from the same list fuses into one map. -/
theorem zipAnd_map_map {α : Type} (f g : α → Bool) (l : List α) :
    zipAnd (l.map f) (l.map g) = l.map (fun x => f x && g x) := by
  induction l with
  | nil => rfl
  | cons x xs ih => simp [zipAnd, ih]

/-- Keeping the elements strictly below a bound is dropping those at or
above it. -/
theorem decide_lt_not_le {α : Type} [LinearOrder α] (a b : α) :
    decide (a < b) = !decide (b ≤ a) := by
  rw [← decide_not]
  exact decide_eq_decide.mpr not_le.symm

/-! ## The claims -/

/-- Claim C1, counterexample: it is false that every preprocessing and
embedding statement mutates the single annotated matrix in place with no
step replacing it or copying it — the QC subsetting statements
`adata = adata[adata.obs.n_genes_by_counts < 2500, :]` and
`adata = adata[adata.obs.pct_counts_mt < 5, :]` rebind `adata` to freshly
created subset objects, and `adata_scvi = adata.copy()` introduces a
second copy of the matrix. -/
theorem notebook_rebinds_and_copies : ¬ claimC1InPlace := by
  unfold claimC1InPlace
  decide

/-- Claim C1, amended: every preprocessing and embedding statement mutates
the annotated matrix in place, except that the two QC subsetting
statements rebind `adata` to a freshly created subset object and the scVI
stage introduces one explicit copy bound to the second name `adata_scvi`;
apart from these (and the initial read that allocates the matrix), no
statement replaces the matrix or copies it. -/
theorem notebook_binding_effects :
    (notebookTags.filter (fun t => decide (objEffect t = ObjEffect.rebindNew)))
        = [subsetNGenesStep, subsetPctMtStep] ∧
    (notebookTags.filter (fun t => decide (objEffect t = ObjEffect.allocCopy)))
        = [copyScvi] ∧
    (notebookTags.filter (fun t => decide (objEffect t = ObjEffect.allocRead)))
        = [readData] ∧
    ∀ t ∈ notebookTags,
      objEffect t = ObjEffect.mutateInPlace ∨ objEffect t = ObjEffect.mutateCopy ∨
        objEffect t = ObjEffect.pureStep ∨ t = readData ∨ t = subsetNGenesStep ∨
        t = subsetPctMtStep ∨ t = copyScvi := by
  decide

set_option maxRecDepth 8000 in
set_option maxHeartbeats 2000000 in
/-- Claim C2: the preprocessing applies a fixed sequence of transforms in a
fixed order — filter cells having fewer than 200 detected genes, then
filter genes detected in fewer than 3 cells, then drop cells with
`n_genes_by_counts ≥ 2500` or `pct_counts_mt ≥ 5`, then normalize each
cell's total counts to 10000, then apply `log1p`; in particular all
filtering happens before normalization and log-transformation.  The state
of the main matrix when preprocessing ends (just before the
highly-variable-genes statement) equals that composition. -/
theorem preprocessing_fixed_sequence (X0 : Mat) (names0 : List String) (lg : ℚ → ℚ) :
    (stateBefore hvgStep X0 names0 lg).adata.X = specPreprocessX X0 names0 lg := by
  have h0 : stateBefore hvgStep X0 names0 lg = runTags X0 names0 lg
      [installPkgs, chdirStep, mkdirData, downloadData, extractData, mkdirWrite,
       readData, varNamesUnique, setRaw, plotHighestExpr,
       filterCellsStep, filterGenesStep, mtFlagStep, calcQCStep, plotViolin, plotScatter,
       subsetNGenesStep, subsetPctMtStep, saveCountsStep, normalizeStep, log1pStep]
      initState := rfl
  rw [h0]
  simp only [runTags, applyStep, initState, filter_cells, filter_genes, maskCells,
    annotateMt, calculate_qc_metrics, subsetNGenesLt, subsetPctMtLt, saveCountsLayer,
    normalize_total, log1pStepFun, specPreprocessX, Option.map_some', Option.map_none',
    Option.getD_some, List.map_map]
  simp only [maskList_map, List.map_map, maskList_maskList, zipAnd_map_map,
    decide_lt_not_le, Bool.not_or, Bool.and_assoc, Function.comp]

set_option maxRecDepth 8000 in
set_option maxHeartbeats 2000000 in
/-- Claim C3: each of the four dimension-reduction methods is invoked on
the preprocessed matrix and each produces a low-dimensional embedding with
one coordinate vector per cell, stored on the matrix in the slots
`X_pca`, `X_tsne`, `X_umap` and `X_scVI`: at the end of the run all four
slots are filled and each holds exactly one row per cell. -/
theorem embeddings_one_vector_per_cell (X0 : Mat) (names0 : List String) (lg : ℚ → ℚ) :
    ((runNotebook X0 names0 lg).adata.xPca).map List.length
        = some ((runNotebook X0 names0 lg).adata.X.length) ∧
    ((runNotebook X0 names0 lg).adata.xTsne).map List.length
        = some ((runNotebook X0 names0 lg).adata.X.length) ∧
    ((runNotebook X0 names0 lg).adata.xUmap).map List.length
        = some ((runNotebook X0 names0 lg).adata.X.length) ∧
    ((runNotebook X0 names0 lg).adata.xScvi).map List.length
        = some ((runNotebook X0 names0 lg).adata.X.length) := by
  have hp : (runNotebook X0 names0 lg).adata.xPca
      = some (embedRows 100 ((runNotebook X0 names0 lg).adata.X)) := rfl
  have ht : (runNotebook X0 names0 lg).adata.xTsne
      = some (embedRows 2 ((runNotebook X0 names0 lg).adata.X)) := rfl
  have hu : (runNotebook X0 names0 lg).adata.xUmap
      = some (embedRows 2 ((runNotebook X0 names0 lg).adata.X)) := rfl
  have hx : (runNotebook X0 names0 lg).adata.xScvi
      = ((stateBefore createVae X0 names0 lg).vaeInput).map (embedRows 2) := rfl
  have hv : (stateBefore createVae X0 names0 lg).vaeInput
      = (seuratV3TopGenes 2000 ((stateBefore copyScvi X0 names0 lg).adata)).layersCounts := rfl
  have hc : ((stateBefore copyScvi X0 names0 lg).adata).layersCounts
      = some ((stateBefore saveCountsStep X0 names0 lg).adata.X) := rfl
  have hfx : (runNotebook X0 names0 lg).adata.X
      = log1pMat lg
          (((stateBefore saveCountsStep X0 names0 lg).adata.X).map (normalizeRow 10000)) := rfl
  refine ⟨?_, ?_, ?_, ?_⟩
  · rw [hp]; simp [embedRows, List.length_map]
  · rw [ht]; simp [embedRows, List.length_map]
  · rw [hu]; simp [embedRows, List.length_map]
  · rw [hx, hv, hfx]
    simp [seuratV3TopGenes, hc, embedRows, log1pMat, List.length_map]

set_option maxRecDepth 8000 in
/-- Claim C4: the notebook computes the neighbor graph and the Leiden
clustering before any of the four dimension-reduction methods is invoked:
in the session state just before each of the PCA, t-SNE, UMAP and scVI
computations, the cluster labels (and, before PCA, the neighbor graph)
are already present, and the neighbors and leiden statements precede the
PCA statement in the source. -/
theorem clustering_before_embeddings (X0 : Mat) (names0 : List String) (lg : ℚ → ℚ) :
    (stateBefore pcaStep X0 names0 lg).adata.neighborsComputed = true ∧
    ((stateBefore pcaStep X0 names0 lg).adata.obsLeiden).isSome = true ∧
    ((stateBefore tsneStep X0 names0 lg).adata.obsLeiden).isSome = true ∧
    ((stateBefore umapStep X0 names0 lg).adata.obsLeiden).isSome = true ∧
    ((stateBefore trainVaeStep X0 names0 lg).adata.obsLeiden).isSome = true ∧
    tagPos neighborsStep1 < tagPos leidenStep ∧ tagPos leidenStep < tagPos pcaStep :=
  ⟨rfl, rfl, rfl, rfl, rfl, by decide, by decide⟩

/-- Claim C5: the pipeline's persistent outputs are exactly the one
serialized annotated-matrix file at the hard-coded path `data/pbmc3k.h5ad`;
every other file the notebook writes is downloaded or unpacked input data,
and the plots are rendered inline. -/
theorem single_output_file : pipelineOutputFiles = ["data/pbmc3k.h5ad"] := rfl

/-- Claim C6: the notebook implements no error handling of its own:
whenever a library call raises on the state it is given, the straight-line
run re-raises exactly that error as its overall result — there is no
handler, recovery, retry or reclassification between the failing call and
the interactive session. -/
theorem notebook_propagates_errors {ε : Type}
    (f : StepTag → PipeState → Except ε PipeState)
    (pre post : List StepTag) (t : StepTag) (s' : PipeState) (e : ε)
    (hsplit : notebookTags = pre ++ t :: post)
    (hpre : runExcept f pre initState = Except.ok s')
    (herr : f t s' = Except.error e) :
    runExcept f notebookTags initState = Except.error e := by
  rw [hsplit, runExcept_append, hpre]
  simp only [Except.bind, runExcept, herr]

/-- Witness for claim C6: a session whose very first library call raises
ends in exactly that error. -/
theorem notebook_propagates_errors_witness :
    runExcept (fun _ _ => Except.error "read error") notebookTags initState
      = Except.error "read error" :=
  notebook_propagates_errors (fun _ _ => Except.error "read error")
    [] (notebookTags.drop 1) installPkgs initState "read error" rfl rfl rfl

set_option maxRecDepth 8000 in
/-- Claim C7: the `highly_variable` flag — computed by variance-based
criteria, thresholds on mean expression and dispersion — is written into
the gene metadata before the neighbor graph, the clustering and every
dimension-reduction method run, and the separate variance-based
top-2000-gene selection is applied to the scVI copy before scVI training. -/
theorem hvg_before_downstream (X0 : Mat) (names0 : List String) (lg : ℚ → ℚ) :
    (stateBefore neighborsStep1 X0 names0 lg).adata.varHighlyVariable
        = some (hvgFlags (125/10000) 3 (1/2)
            ((stateBefore neighborsStep1 X0 names0 lg).adata.X)
            ((stateBefore neighborsStep1 X0 names0 lg).adata.varNames.length)) ∧
    tagPos hvgStep < tagPos neighborsStep1 ∧ tagPos hvgStep < tagPos leidenStep ∧
    tagPos hvgStep < tagPos pcaStep ∧ tagPos hvgStep < tagPos tsneStep ∧
    tagPos hvgStep < tagPos umapStep ∧ tagPos hvgScviStep < tagPos trainVaeStep ∧
    (stateBefore trainVaeStep X0 names0 lg).adataScvi
        = some (seuratV3TopGenes 2000 ((stateBefore copyScvi X0 names0 lg).adata)) :=
  ⟨rfl, by decide, by decide, by decide, by decide, by decide, by decide, rfl⟩

set_option maxRecDepth 8000 in
/-- Claim C8: the serialized file is written immediately after PCA and
before t-SNE, UMAP and scVI run: the written contents are the state of the
matrix just before the t-SNE statement, which carries the PCA embedding
but none of the t-SNE, UMAP or scVI embeddings — while the in-memory
matrix at the end of the run carries all three. -/
theorem results_file_pca_only (X0 : Mat) (names0 : List String) (lg : ℚ → ℚ) :
    (runNotebook X0 names0 lg).written = some ((stateBefore tsneStep X0 names0 lg).adata) ∧
    ((stateBefore tsneStep X0 names0 lg).adata.xPca).isSome = true ∧
    (stateBefore tsneStep X0 names0 lg).adata.xTsne = none ∧
    (stateBefore tsneStep X0 names0 lg).adata.xUmap = none ∧
    (stateBefore tsneStep X0 names0 lg).adata.xScvi = none ∧
    ((runNotebook X0 names0 lg).adata.xTsne).isSome = true ∧
    ((runNotebook X0 names0 lg).adata.xUmap).isSome = true ∧
    ((runNotebook X0 names0 lg).adata.xScvi).isSome = true :=
  ⟨rfl, rfl, rfl, rfl, rfl, rfl, rfl, rfl⟩

set_option maxRecDepth 8000 in
/-- Claim C9: the raw count matrix is saved into the `counts` layer before
normalization; `normalize_total` and `log1p` then modify only the main
matrix `X` (the state after them is the state before them with only `X`
replaced), so the layer still holds the untransformed counts; and the data
registered for scVI training is the `counts` layer of the gene-subset copy
— the raw counts, not the normalized log-transformed values. -/
theorem counts_layer_and_scvi_input (X0 : Mat) (names0 : List String) (lg : ℚ → ℚ) :
    (stateBefore normalizeStep X0 names0 lg).adata.layersCounts
        = some ((stateBefore saveCountsStep X0 names0 lg).adata.X) ∧
    (stateBefore hvgStep X0 names0 lg).adata
        = { (stateBefore normalizeStep X0 names0 lg).adata with
            X := log1pMat lg
              (((stateBefore normalizeStep X0 names0 lg).adata.X).map (normalizeRow 10000)) } ∧
    ((stateBefore copyScvi X0 names0 lg).adata).layersCounts
        = some ((stateBefore saveCountsStep X0 names0 lg).adata.X) ∧
    (stateBefore createVae X0 names0 lg).vaeInput
        = (seuratV3TopGenes 2000 ((stateBefore copyScvi X0 names0 lg).adata)).layersCounts :=
  ⟨rfl, rfl, rfl, rfl⟩

set_option maxRecDepth 8000 in
set_option maxHeartbeats 2000000 in
/-- Claim C10: the scVI stage operates on a copy whose gene axis is subset
to the top 2000 highly variable genes while the cell axis is unchanged:
the copy has exactly as many rows as the original matrix and
`min 2000 n` genes, the latent representation assigned back as `X_scVI`
has exactly one row per cell of the original matrix, and the original
matrix's gene set is unaffected by the scVI gene subsetting. -/
theorem scvi_copy_shape_compatibility (X0 : Mat) (names0 : List String) (lg : ℚ → ℚ) :
    ((runNotebook X0 names0 lg).adataScvi).map (fun b => b.X.length)
        = some ((runNotebook X0 names0 lg).adata.X.length) ∧
    ((runNotebook X0 names0 lg).adataScvi).map (fun b => b.varNames.length)
        = some (min 2000 ((stateBefore copyScvi X0 names0 lg).adata.varNames.length)) ∧
    ((runNotebook X0 names0 lg).adata.xScvi).map List.length
        = some ((runNotebook X0 names0 lg).adata.X.length) ∧
    (runNotebook X0 names0 lg).adata.varNames
        = (stateBefore copyScvi X0 names0 lg).adata.varNames := by
  have h : (runNotebook X0 names0 lg).adataScvi
      = some (seuratV3TopGenes 2000 ((stateBefore copyScvi X0 names0 lg).adata)) := rfl
  have hx : (runNotebook X0 names0 lg).adata.xScvi
      = ((stateBefore createVae X0 names0 lg).vaeInput).map (embedRows 2) := rfl
  have hv : (stateBefore createVae X0 names0 lg).vaeInput
      = (seuratV3TopGenes 2000 ((stateBefore copyScvi X0 names0 lg).adata)).layersCounts := rfl
  have hc : ((stateBefore copyScvi X0 names0 lg).adata).layersCounts
      = some ((stateBefore saveCountsStep X0 names0 lg).adata.X) := rfl
  refine ⟨?_, ?_, ?_, rfl⟩
  · rw [h]
    simp only [Option.map_some', seuratV3TopGenes, List.length_map]
    exact congrArg some rfl
  · rw [h]
    simp [seuratV3TopGenes, List.length_map, List.length_take,
      length_sortIdxByValDesc, List.length_range]
  · rw [hx, hv]
    have hfx : (runNotebook X0 names0 lg).adata.X
        = log1pMat lg
            (((stateBefore saveCountsStep X0 names0 lg).adata.X).map (normalizeRow 10000)) := rfl
    rw [hfx]
    simp [seuratV3TopGenes, hc, embedRows, log1pMat, List.length_map]
